import Mathlib

/-!
Verification of the H2-Optimize suitability scoring and area analysis engine.

The JavaScript source is embedded shallowly:
* JS numbers are modelled as exact rationals (`ℚ`) where the code only uses
  field operations and comparisons, and as real numbers (`ℝ`) where the code
  uses `Math.exp`, trigonometry or `Math.sqrt`.
* `Math.round(x)` is `⌊x + 1/2⌋`, which is Mathlib's `round`; rounding to two
  decimals (`Math.round(x*100)/100`) is `round2`.
* `Math.random()` draws are passed in explicitly as parameters (one per draw
  site), so every function is a pure function of its inputs and its draws.
-/

/-- JS `Math.round(x * 100) / 100` on rationals (round to 2 decimal places). -/
def round2Q (x : ℚ) : ℚ := ((round (x * 100) : ℤ) : ℚ) / 100

/-- JS `Math.round` on rationals, kept as a rational. -/
def jsRoundQ (x : ℚ) : ℚ := ((round x : ℤ) : ℚ)

/-- Mathlib `round` is monotone on a linear ordered field with a floor. -/
theorem jsRound_mono {α : Type} [LinearOrderedField α] [FloorRing α]
    {x y : α} (h : x ≤ y) : round x ≤ round y := by
  rw [round_eq, round_eq]
  exact Int.floor_mono (by linarith)

/-- A guarded accumulator step `if b then s + c else s` is the sum with a
guarded increment; used to linearise the JS `score += …` chains. -/
theorem ite_add_push (b : Prop) [Decidable b] (s c : ℚ) :
    (if b then s + c else s) = s + (if b then c else 0) := by
  split_ifs <;> simp

/-- The JS guard `if (n > 0) { s -= n * c }` is an unconditional subtraction,
because the guard only skips a subtraction of zero. -/
theorem ite_len_push (s c : ℚ) (n : ℕ) :
    (if 0 < n then s - (n : ℚ) * c else s) = s - (n : ℚ) * c := by
  split_ifs with h
  · rfl
  · have hn : n = 0 := by omega
    simp [hn]

/-! ### Regulatory zone data model (src/backend/models/RegulatoryZone.js) -/

/-- The fixed `type` enumeration of the RegulatoryZone schema. -/
inductive ZoneType
  | hydrogenPriorityZone
  | industrialZone
  | environmentalSensitive
  | renewableEnergyZone
  | portAuthority
  | specialEconomicZone
  | restrictedZone
  | governmentIncentiveZone
deriving DecidableEq

/-- The fixed `environmentalLimitations` tag enumeration. -/
inductive EnvLimitation
  | waterUsageLimit
  | noiseRestriction
  | emissionLimit
  | landUseRestriction
deriving DecidableEq

/-- One entry of `restrictions.seasonalRestrictions`. -/
structure SeasonalRestriction where
  months : List String
  reason : String
deriving DecidableEq

/-- The `policies` sub-document. -/
structure Policies where
  hydrogenIncentives : Bool
  subsidyPercentage : ℚ
  fastTrackApproval : Bool
  environmentalClearanceRequired : Bool
  landAcquisitionSupport : Bool
  infrastructureSupport : Bool
deriving DecidableEq

/-- The `restrictions` sub-document; `maxCapacity = none` models the schema
default `null` (no restriction). -/
structure ZoneRestrictions where
  maxCapacity : Option ℚ
  environmentalLimitations : List EnvLimitation
  seasonalRestrictions : List SeasonalRestriction
deriving DecidableEq

/-- The `contactInfo` sub-document; absent fields are `none`. -/
structure ContactInfo where
  authority : Option String
  email : Option String
  phone : Option String
  website : Option String
deriving DecidableEq

/-- The zone `status` enumeration. -/
inductive ZoneStatus
  | active
  | proposed
  | expired
  | suspended
deriving DecidableEq

/-- A regulatory zone document, restricted to the fields the scoring and
overlay-analysis functions read. -/
structure RegulatoryZone where
  name : String
  zoneType : ZoneType
  policies : Policies
  restrictions : ZoneRestrictions
  approvalTimeline : ℚ
  contactInfo : ContactInfo
  status : ZoneStatus
deriving DecidableEq

/-- The `zoneTypeBonus` lookup table of `calculateRegulatoryScore`. -/
def zoneTypeBonus : ZoneType → ℚ
  | .hydrogenPriorityZone => 25
  | .renewableEnergyZone => 20
  | .industrialZone => 15
  | .specialEconomicZone => 15
  | .portAuthority => 10
  | .environmentalSensitive => -20
  | .restrictedZone => -30
  | .governmentIncentiveZone => 20

/-- Source `RegulatoryZone.methods.calculateRegulatoryScore`
(src/backend/models/RegulatoryZone.js, lines 135-175), translated step by
step: the JS mutates a local `score`, modelled by rebinding. -/
def calculateRegulatoryScore (z : RegulatoryZone) : ℚ :=
  let score : ℚ := 50
  let score := if z.policies.hydrogenIncentives then score + 20 else score
  let score := score + (z.policies.subsidyPercentage / 100) * 15
  let score := if z.policies.fastTrackApproval then score + 10 else score
  let score := if z.policies.landAcquisitionSupport then score + 10 else score
  let score := if z.policies.infrastructureSupport then score + 10 else score
  let score := score + zoneTypeBonus z.zoneType
  let score := if 0 < z.restrictions.environmentalLimitations.length then
      score - (z.restrictions.environmentalLimitations.length : ℚ) * 5 else score
  let score := if 0 < z.restrictions.seasonalRestrictions.length then
      score - (z.restrictions.seasonalRestrictions.length : ℚ) * 3 else score
  let score := if z.approvalTimeline > 365 then score - 10
    else if z.approvalTimeline > 180 then score - 5
    else if z.approvalTimeline ≤ 90 then score + 5
    else score
  max 0 (min 100 (jsRoundQ score))

/-- Modelled from the spec: the raw zone-score formula of spec section 4.3
(base 50, policy bonuses, subsidy term, zone-type bonus, restriction
penalties, timeline adjustment), without any rounding, for the refinement
comparison with the source function. -/
def specZoneScoreRaw (z : RegulatoryZone) : ℚ :=
  50 + (if z.policies.hydrogenIncentives then 20 else 0)
    + (if z.policies.fastTrackApproval then 10 else 0)
    + (if z.policies.landAcquisitionSupport then 10 else 0)
    + (if z.policies.infrastructureSupport then 10 else 0)
    + (z.policies.subsidyPercentage / 100) * 15
    + zoneTypeBonus z.zoneType
    - (z.restrictions.environmentalLimitations.length : ℚ) * 5
    - (z.restrictions.seasonalRestrictions.length : ℚ) * 3
    + (if z.approvalTimeline > 365 then -10
       else if z.approvalTimeline > 180 then -5
       else if z.approvalTimeline ≤ 90 then 5
       else 0)

/-- Modelled from the spec: the claimed zone score, the raw formula clamped
to `[0,100]` with no intermediate rounding. -/
def specZoneScore (z : RegulatoryZone) : ℚ := max 0 (min 100 (specZoneScoreRaw z))

/-- The accumulated raw score of the source equals the linear spec formula. -/
theorem calculateRegulatoryScore_eq_clamp_round (z : RegulatoryZone) :
    calculateRegulatoryScore z = max 0 (min 100 (jsRoundQ (specZoneScoreRaw z))) := by
  simp only [calculateRegulatoryScore, specZoneScoreRaw]
  have htime : ∀ s : ℚ,
      (if z.approvalTimeline > 365 then s - 10
        else if z.approvalTimeline > 180 then s - 5
        else if z.approvalTimeline ≤ 90 then s + 5
        else s)
      = s + (if z.approvalTimeline > 365 then -10
        else if z.approvalTimeline > 180 then -5
        else if z.approvalTimeline ≤ 90 then 5
        else 0) := by
    intro s
    split_ifs <;> ring
  rw [htime, ite_len_push, ite_len_push]
  have hflag : ∀ (b : Bool) (s c : ℚ), (if b then s + c else s) = s + (if b then c else 0) := by
    intro b s c
    cases b <;> simp
  rw [hflag, hflag, hflag, hflag]
  congr 1
  congr 1
  congr 1
  ring

/-- A concrete zone: industrial type, a 1% subsidy, every flag off, no
restrictions, the default 180-day approval timeline. -/
def subsidyZone : RegulatoryZone :=
  { name := "Zone A"
    zoneType := .industrialZone
    policies :=
      { hydrogenIncentives := false
        subsidyPercentage := 1
        fastTrackApproval := false
        environmentalClearanceRequired := true
        landAcquisitionSupport := false
        infrastructureSupport := false }
    restrictions := { maxCapacity := none, environmentalLimitations := [], seasonalRestrictions := [] }
    approvalTimeline := 180
    contactInfo := { authority := none, email := none, phone := none, website := none }
    status := .active }

/-- Evaluate `round` by bracketing its argument between two integers. -/
theorem jsRound_eq {α : Type} [LinearOrderedField α] [FloorRing α] {x : α} {n : ℤ}
    (h1 : (n : α) ≤ x + 1 / 2) (h2 : x + 1 / 2 < (n : α) + 1) : round x = n := by
  rw [round_eq]
  refine Int.floor_eq_iff.mpr ⟨h1, ?_⟩
  linarith

/-- Claim C7, counterexample: for `subsidyZone` the raw formula gives
`50 + 0.15 + 15 = 65.15`, which clamped is `65.15`, but the source rounds to
the nearest integer before clamping and returns `65`. -/
theorem zoneScore_not_unrounded_formula :
    calculateRegulatoryScore subsidyZone = 65 ∧
    specZoneScore subsidyZone = 1303 / 20 ∧
    calculateRegulatoryScore subsidyZone ≠ specZoneScore subsidyZone := by
  have hraw : specZoneScoreRaw subsidyZone = 1303 / 20 := by
    norm_num [specZoneScoreRaw, subsidyZone, zoneTypeBonus]
  have hcode : calculateRegulatoryScore subsidyZone = 65 := by
    rw [calculateRegulatoryScore_eq_clamp_round, hraw]
    have h65 : jsRoundQ (1303 / 20 : ℚ) = ((65 : ℤ) : ℚ) := by
      unfold jsRoundQ
      rw [jsRound_eq (n := 65) (by norm_num) (by norm_num)]
    rw [h65]
    norm_num
  have hspec : specZoneScore subsidyZone = 1303 / 20 := by
    rw [specZoneScore, hraw]
    norm_num
  refine ⟨hcode, hspec, ?_⟩
  rw [hcode, hspec]
  norm_num

/-- Claim C7 (amended): the zone score equals the spec formula with the raw
total rounded to the nearest integer before the `[0,100]` clamp, and is
therefore always in `[0,100]`. -/
theorem zoneScore_eq_roundedSpec (z : RegulatoryZone) :
    calculateRegulatoryScore z = max 0 (min 100 (jsRoundQ (specZoneScoreRaw z))) ∧
    0 ≤ calculateRegulatoryScore z ∧ calculateRegulatoryScore z ≤ 100 := by
  refine ⟨calculateRegulatoryScore_eq_clamp_round z, ?_, ?_⟩
  · rw [calculateRegulatoryScore_eq_clamp_round]
    exact le_max_left _ _
  · rw [calculateRegulatoryScore_eq_clamp_round]
    exact max_le (by norm_num) (min_le_left _ _)

/-! ### Regulatory overlay resolver (suitability controller,
`analyzeRegulatoryEnvironment`) -/

/-- Incentive/restriction summary strings are modelled as structured messages
(one constructor per push site, carrying the interpolated data), so that the
string building of the source is captured injectively. -/
inductive RegMsg
  | hydrogenIncentivesAvailable (zone : String)
  | subsidyAvailable (zone : String) (pct : ℚ)
  | fastTrackProcess (zone : String)
  | landAcquisitionProvided (zone : String)
  | infrastructureSupportProvided (zone : String)
  | maxCapacityCap (zone : String) (mw : ℚ)
  | environmentalLimitationNote (zone : String) (tag : EnvLimitation)
  | seasonalRestrictionNote (zone : String) (months : List String)
deriving DecidableEq

/-- One collected contact record. -/
structure KeyContact where
  zone : String
  authority : String
  email : Option String
  phone : Option String
  website : Option String
deriving DecidableEq

/-- The result object of `analyzeRegulatoryEnvironment`. -/
structure RegulatoryAnalysis where
  overallScore : ℚ
  level : String
  color : String
  description : String
  recommendations : List String
  incentives : List RegMsg
  restrictions : List RegMsg
  approvalTimeline : String
  keyContacts : List KeyContact
  affectedZones : ℕ
deriving DecidableEq

/-- The incentive pushes of the `zones.forEach` body, in source order. -/
def zoneIncentives (z : RegulatoryZone) : List RegMsg :=
  (if z.policies.hydrogenIncentives then [RegMsg.hydrogenIncentivesAvailable z.name] else [])
    ++ (if 0 < z.policies.subsidyPercentage then
        [RegMsg.subsidyAvailable z.name z.policies.subsidyPercentage] else [])
    ++ (if z.policies.fastTrackApproval then [RegMsg.fastTrackProcess z.name] else [])
    ++ (if z.policies.landAcquisitionSupport then [RegMsg.landAcquisitionProvided z.name] else [])
    ++ (if z.policies.infrastructureSupport then [RegMsg.infrastructureSupportProvided z.name] else [])

/-- The restriction pushes of the `zones.forEach` body, in source order;
`maxCapacity` is pushed only when truthy (present and nonzero). -/
def zoneRestrictionMsgs (z : RegulatoryZone) : List RegMsg :=
  (match z.restrictions.maxCapacity with
    | some c => if c ≠ 0 then [RegMsg.maxCapacityCap z.name c] else []
    | none => [])
    ++ z.restrictions.environmentalLimitations.map (fun t => RegMsg.environmentalLimitationNote z.name t)
    ++ z.restrictions.seasonalRestrictions.map (fun s => RegMsg.seasonalRestrictionNote z.name s.months)

/-- The running minimum of `approvalTimeline` over the zones;
`none` models the JS initial value `Infinity`. -/
def shortestApprovalFold (zones : List RegulatoryZone) : Option ℚ :=
  zones.foldl (fun m z =>
    match m with
    | none => some z.approvalTimeline
    | some v => if z.approvalTimeline < v then some z.approvalTimeline else some v) none

/-- The contact push of the `zones.forEach` body: only when
`contactInfo.authority` is truthy (present and non-empty). -/
def zoneContact (z : RegulatoryZone) : Option KeyContact :=
  match z.contactInfo.authority with
  | some a =>
    if a = "" then none
    else some ⟨z.name, a, z.contactInfo.email, z.contactInfo.phone, z.contactInfo.website⟩
  | none => none

/-- The five-band level/colour/description/recommendation table of
`analyzeRegulatoryEnvironment`. -/
def regulatoryLevelInfo (overallScore : ℚ) : String × String × String × List String :=
  if overallScore ≥ 80 then
    ("Highly Favorable", "#22c55e",
      "Excellent regulatory environment with strong government support and incentives.",
      ["Proceed with detailed feasibility study",
       "Engage with local authorities early for fast-track processing",
       "Leverage available incentives and subsidies"])
  else if overallScore ≥ 60 then
    ("Favorable", "#84cc16",
      "Good regulatory environment with some incentives and reasonable approval processes.",
      ["Review specific zone requirements in detail",
       "Consider timing to optimize incentive utilization",
       "Prepare comprehensive environmental assessments"])
  else if overallScore ≥ 40 then
    ("Moderate", "#eab308",
      "Mixed regulatory environment. Some benefits but also restrictions to consider.",
      ["Conduct thorough regulatory due diligence",
       "Consider phased development approach",
       "Engage regulatory consultants familiar with local requirements"])
  else if overallScore ≥ 20 then
    ("Challenging", "#f97316",
      "Complex regulatory environment with significant restrictions or lengthy processes.",
      ["Assess if benefits justify regulatory complexity",
       "Consider alternative locations with better regulatory support",
       "Plan for extended development timeline"])
  else
    ("Unfavorable", "#ef4444",
      "Difficult regulatory environment with major restrictions or lack of support.",
      ["Strongly consider alternative locations",
       "If proceeding, engage specialized regulatory experts",
       "Plan for significant time and resource investment"])

/-- Source `analyzeRegulatoryEnvironment(zones, lat, lng)` of the suitability
controller (src/unnamed/part_006, lines 324-462); `lat`/`lng` are unused in
the source as well. -/
def analyzeRegulatoryEnvironment (zones : List RegulatoryZone) (lat lng : ℚ) : RegulatoryAnalysis :=
  if zones.length = 0 then
    { overallScore := 30
      level := "Unknown"
      color := "#9ca3af"
      description := "No specific regulatory zones identified. Standard approval processes apply."
      recommendations :=
        ["Consult local authorities for specific requirements",
         "Consider proximity to industrial zones for better support",
         "Check for any upcoming policy changes"]
      incentives := []
      restrictions := []
      approvalTimeline := "6-12 months (estimated)"
      keyContacts := []
      affectedZones := 0 }
  else
    let scores := zones.map calculateRegulatoryScore
    let overallScore := jsRoundQ (scores.sum / (scores.length : ℚ))
    let incentives := zones.flatMap zoneIncentives
    let restrictions := zones.flatMap zoneRestrictionMsgs
    let shortestApproval := shortestApprovalFold zones
    let contacts := zones.filterMap zoneContact
    let info := regulatoryLevelInfo overallScore
    { overallScore := overallScore
      level := info.1
      color := info.2.1
      description := info.2.2.1
      recommendations := info.2.2.2.take 3
      incentives := incentives.take 5
      restrictions := restrictions.take 5
      approvalTimeline :=
        match shortestApproval with
        | none => "6-12 months (estimated)"
        | some v => toString ⌈v / 30⌉ ++ " months"
      keyContacts := contacts.take 3
      affectedZones := zones.length }

/-- Claim C8: with an empty zone list, every call of the overlay analysis
returns exactly the neutral fallback record (score 30, level Unknown, empty
incentive and restriction lists, the three fixed generic recommendations,
and the estimated 6-12 month approval window), with no error path. -/
theorem analyzeRegulatoryEnvironment_empty (lat lng : ℚ) :
    analyzeRegulatoryEnvironment [] lat lng =
      { overallScore := 30
        level := "Unknown"
        color := "#9ca3af"
        description := "No specific regulatory zones identified. Standard approval processes apply."
        recommendations :=
          ["Consult local authorities for specific requirements",
           "Consider proximity to industrial zones for better support",
           "Check for any upcoming policy changes"]
        incentives := []
        restrictions := []
        approvalTimeline := "6-12 months (estimated)"
        keyContacts := []
        affectedZones := 0 } := rfl

/-! ### Point-suitability request validation (suitability controller,
`calculateSuitability`) -/

/-- JS truthiness of an optional numeric request field: `!x` is true when the
field is absent (`undefined`) and also when it is the number `0`. -/
def jsFalsy : Option ℚ → Bool
  | none => true
  | some v => v == 0

/-- The three exits of the controller's validation prologue. -/
inductive SuitabilityResponse
  | missingParams
  | invalidCoordinates
  | accepted (lat lng : ℚ)
deriving DecidableEq

/-- The validation prologue of `calculateSuitability`
(src/backend/controllers/suitabilityController.js lines 16-32 and
src/unnamed/part_006 lines 17-33): first `if (!lat || !lng)` returns the
missing-parameters error, then the range check returns the
invalid-coordinates error; the `getD` defaults are unreachable because a
falsy (hence absent) field already returned. -/
def validateSuitabilityRequest (lat lng : Option ℚ) : SuitabilityResponse :=
  if jsFalsy lat || jsFalsy lng then .missingParams
  else
    let la := lat.getD 0
    let ln := lng.getD 0
    if la < -90 ∨ la > 90 ∨ ln < -180 ∨ ln > 180 then .invalidCoordinates
    else .accepted la ln

/-- Claim C6, failing input: the in-range request `lat = 0, lng = 72.5714` is
rejected as "Missing required parameters" because `!lat` is true for the
number 0, so the equator (and the prime meridian, symmetrically) cannot be
scored even though the coordinate ranges allow it. -/
theorem zeroLatitudeRejected :
    validateSuitabilityRequest (some 0) (some (725714 / 10000)) = .missingParams ∧
    (-90 : ℚ) ≤ 0 ∧ (0 : ℚ) ≤ 90 ∧
    (-180 : ℚ) ≤ 725714 / 10000 ∧ (725714 / 10000 : ℚ) ≤ 180 ∧
    validateSuitabilityRequest (some 0) (some (725714 / 10000)) ≠
      .accepted 0 (725714 / 10000) := by
  refine ⟨rfl, by norm_num, by norm_num, by norm_num, by norm_num, ?_⟩
  intro h
  exact SuitabilityResponse.noConfusion h

/-! ### Area grid lattice (suitability controller, `analyzeArea`) -/

/-- The `bounds` object of an area-analysis request. -/
structure Bounds where
  north : ℚ
  south : ℚ
  east : ℚ
  west : ℚ
deriving DecidableEq

/-- Source `latStep = (north - south) / gridResolution`: the step is computed from
the REQUESTED resolution (src/unnamed/part_006 line 174), before clamping. -/
def latStep (b : Bounds) (g : ℕ) : ℚ := (b.north - b.south) / g

/-- Source `lngStep = (east - west) / gridResolution`, from the requested
resolution. -/
def lngStep (b : Bounds) (g : ℕ) : ℚ := (b.east - b.west) / g

/-- Source `actualGridResolution = Math.min(gridResolution, 8)`
(src/unnamed/part_006 line 181). -/
def actualGridResolution (g : ℕ) : ℕ := min g 8

/-- The cell-centre latitude of row `i`: `south + (i + 0.5) * latStep`. -/
def cellLat (b : Bounds) (g : ℕ) (i : ℕ) : ℚ := b.south + ((i : ℚ) + 1 / 2) * latStep b g

/-- The cell-centre longitude of column `j`: `west + (j + 0.5) * lngStep`. -/
def cellLng (b : Bounds) (g : ℕ) (j : ℕ) : ℚ := b.west + ((j : ℚ) + 1 / 2) * lngStep b g

/-- The row-major list of evaluated cell centres: both loops run to
`actualGridResolution`, while the steps divide by the requested `g`. -/
def gridCells (b : Bounds) (g : ℕ) : List (ℚ × ℚ) :=
  (List.range (actualGridResolution g)).flatMap fun i =>
    (List.range (actualGridResolution g)).map fun j => (cellLat b g i, cellLng b g j)

/-- The evaluated grid always has exactly `(min g 8)²` cells. -/
theorem gridCells_length (b : Bounds) (g : ℕ) :
    (gridCells b g).length = actualGridResolution g * actualGridResolution g := by
  unfold gridCells
  rw [List.length_flatMap]
  simp only [Function.comp_def, List.length_map, List.length_range, List.map_const']
  rw [List.sum_replicate]
  simp [List.length_range, smul_eq_mul]

/-- The 8-degree-square bounds used for concrete grid computations. -/
def wideBounds : Bounds := { north := 8, south := 0, east := 8, west := 0 }

/-- Claim C2, counterexample: at the default requested resolution 20, the
step is `8/20` (span divided by the REQUESTED resolution), not `8/8` (span
divided by the clamped resolution), so the first centre sits at latitude
`0.2` instead of the claimed `0.5`, and the top edge of the last evaluated
row is `3.2`, far below `north = 8`: the 8×8 evaluated centres do not tile
the rectangle. -/
theorem gridStepUsesRequestedResolution :
    cellLat wideBounds 20 0 = 1 / 5 ∧
    wideBounds.south + ((0 : ℚ) + 1 / 2) *
      ((wideBounds.north - wideBounds.south) / (actualGridResolution 20 : ℚ)) = 1 / 2 ∧
    cellLat wideBounds 20 0 ≠
      wideBounds.south + ((0 : ℚ) + 1 / 2) *
        ((wideBounds.north - wideBounds.south) / (actualGridResolution 20 : ℚ)) ∧
    cellLat wideBounds 20 7 + latStep wideBounds 20 / 2 = 16 / 5 ∧
    wideBounds.north = 8 := by
  refine ⟨?_, ?_, ?_, ?_, rfl⟩ <;>
    norm_num [cellLat, latStep, actualGridResolution, wideBounds]

/-- Claim C2 (amended): the evaluated centres form the
`(min g 8) × (min g 8)` lattice whose step is the bounds span divided by the
REQUESTED resolution `g`, offset half a step from the south/west edges; the
evaluated lattice spans the whole rectangle exactly when `g ≤ 8`. -/
theorem gridCells_characterization (b : Bounds) (g : ℕ)
    (hg : 1 ≤ g) (hb : b.south < b.north) :
    (∀ p ∈ gridCells b g, ∃ i < actualGridResolution g, ∃ j < actualGridResolution g,
        p = (b.south + ((i : ℚ) + 1 / 2) * ((b.north - b.south) / g),
             b.west + ((j : ℚ) + 1 / 2) * ((b.east - b.west) / g))) ∧
    (∀ i < actualGridResolution g, ∀ j < actualGridResolution g,
        (b.south + ((i : ℚ) + 1 / 2) * ((b.north - b.south) / g),
         b.west + ((j : ℚ) + 1 / 2) * ((b.east - b.west) / g)) ∈ gridCells b g) ∧
    (gridCells b g).length = actualGridResolution g * actualGridResolution g ∧
    ((actualGridResolution g : ℚ) * ((b.north - b.south) / g) = b.north - b.south ↔ g ≤ 8) := by
  have hspan : b.north - b.south ≠ 0 := sub_ne_zero.mpr (ne_of_gt hb)
  have hgq : (g : ℚ) ≠ 0 := Nat.cast_ne_zero.mpr (by omega)
  refine ⟨?_, ?_, gridCells_length b g, ?_⟩
  · intro p hp
    simp only [gridCells, List.mem_flatMap, List.mem_map, List.mem_range] at hp
    obtain ⟨i, hi, j, hj, hij⟩ := hp
    exact ⟨i, hi, j, hj, by rw [← hij]; simp [cellLat, cellLng, latStep, lngStep]⟩
  · intro i hi j hj
    simp only [gridCells, List.mem_flatMap, List.mem_map, List.mem_range]
    exact ⟨i, hi, j, hj, by simp [cellLat, cellLng, latStep, lngStep]⟩
  · constructor
    · intro h
      by_contra hgt
      push_neg at hgt
      have hmin : actualGridResolution g = 8 := by
        unfold actualGridResolution
        omega
      rw [hmin] at h
      have h8 : ((8 : ℚ) - g) * ((b.north - b.south) / g) = 0 := by
        field_simp at h ⊢
        linarith
      rcases mul_eq_zero.mp h8 with h1 | h2
      · have : ((8 : ℚ)) = (g : ℚ) := by linarith
        have : (8 : ℕ) = g := by exact_mod_cast this
        omega
      · exact hspan (by field_simp at h2; linarith [h2])
    · intro hle
      have hmin : actualGridResolution g = g := by
        unfold actualGridResolution
        omega
      rw [hmin]
      field_simp

/-- Witness for the amended claim C2, at bounds `wideBounds` and requested
resolution 4. -/
theorem gridCells_characterization_witness :
    (1 ≤ 4 ∧ wideBounds.south < wideBounds.north) ∧
    ((∀ p ∈ gridCells wideBounds 4, ∃ i < actualGridResolution 4, ∃ j < actualGridResolution 4,
        p = (wideBounds.south + ((i : ℚ) + 1 / 2) * ((wideBounds.north - wideBounds.south) / 4),
             wideBounds.west + ((j : ℚ) + 1 / 2) * ((wideBounds.east - wideBounds.west) / 4))) ∧
    (∀ i < actualGridResolution 4, ∀ j < actualGridResolution 4,
        (wideBounds.south + ((i : ℚ) + 1 / 2) * ((wideBounds.north - wideBounds.south) / 4),
         wideBounds.west + ((j : ℚ) + 1 / 2) * ((wideBounds.east - wideBounds.west) / 4)) ∈
          gridCells wideBounds 4) ∧
    (gridCells wideBounds 4).length = actualGridResolution 4 * actualGridResolution 4 ∧
    ((actualGridResolution 4 : ℚ) * ((wideBounds.north - wideBounds.south) / 4) =
        wideBounds.north - wideBounds.south ↔ 4 ≤ 8)) :=
  ⟨⟨by norm_num, by norm_num [wideBounds]⟩,
    gridCells_characterization wideBounds 4 (by norm_num) (by norm_num [wideBounds])⟩

/-! ### Geodesic and synthetic-factor utilities (src/backend/utils/scoring.js,
second variant, lines 153-414, the one exporting the wind/infrastructure
generators used by the suitability controller) -/

/-- Source `toRad(degrees) = degrees * (Math.PI / 180)`. -/
noncomputable def toRad (degrees : ℝ) : ℝ := degrees * (Real.pi / 180)

/-- JS `Math.round(x * 100) / 100` on reals. -/
noncomputable def round2R (x : ℝ) : ℝ := ((round (x * 100) : ℤ) : ℝ) / 100

/-- JS `Math.round(x * 10) / 10` on reals. -/
noncomputable def round1R (x : ℝ) : ℝ := ((round (x * 10) : ℤ) : ℝ) / 10

/-- JS `Math.atan2(y, x)` on the reals (the NaN inputs never arise here:
`y` is always a square root, hence nonnegative). -/
noncomputable def atan2 (y x : ℝ) : ℝ :=
  if 0 < x then Real.arctan (y / x)
  else if x < 0 then
    (if 0 ≤ y then Real.arctan (y / x) + Real.pi else Real.arctan (y / x) - Real.pi)
  else
    (if 0 < y then Real.pi / 2 else if y < 0 then -(Real.pi / 2) else 0)

/-- Source `calculateDistance(lat1, lng1, lat2, lng2)`: the haversine formula on a
6371 km sphere, rounded to 2 decimals. -/
noncomputable def calculateDistance (lat1 lng1 lat2 lng2 : ℝ) : ℝ :=
  let dLat := toRad (lat2 - lat1)
  let dLng := toRad (lng2 - lng1)
  let a := Real.sin (dLat / 2) * Real.sin (dLat / 2) +
    Real.cos (toRad lat1) * Real.cos (toRad lat2) *
      (Real.sin (dLng / 2) * Real.sin (dLng / 2))
  let c := 2 * atan2 (Real.sqrt a) (Real.sqrt (1 - a))
  round2R (6371 * c)

/-- For nonnegative `y`, `Math.atan2(y, x)` lands in `[0, π]`. -/
theorem atan2_nonneg {y x : ℝ} (hy : 0 ≤ y) : 0 ≤ atan2 y x := by
  unfold atan2
  have hpi := Real.pi_pos
  have harct := Real.neg_pi_div_two_lt_arctan (y / x)
  split_ifs with h1 h2 h3 h4 h5
  · rw [← Real.arctan_zero]
    exact Real.arctan_strictMono.monotone (div_nonneg hy (le_of_lt h1))
  all_goals linarith

/-- Rounding to two decimals is monotone. -/
theorem round2R_mono {x y : ℝ} (h : x ≤ y) : round2R x ≤ round2R y := by
  unfold round2R
  have hr := jsRound_mono (mul_le_mul_of_nonneg_right h (by norm_num : (0 : ℝ) ≤ 100))
  have : ((round (x * 100) : ℤ) : ℝ) ≤ ((round (y * 100) : ℤ) : ℝ) := by exact_mod_cast hr
  linarith

/-- Rounding to two decimals fixes integers. -/
theorem round2R_intCast (n : ℤ) : round2R ((n : ℝ)) = (n : ℝ) := by
  unfold round2R
  have h : ((n : ℝ) * 100) = ((n * 100 : ℤ) : ℝ) := by push_cast; ring
  rw [h, round_intCast]
  push_cast
  ring

/-- Rounding to two decimals preserves nonnegativity. -/
theorem round2R_nonneg {x : ℝ} (h : 0 ≤ x) : 0 ≤ round2R x := by
  have h0 : round2R 0 = 0 := by simpa using round2R_intCast 0
  calc (0 : ℝ) = round2R 0 := h0.symm
    _ ≤ round2R x := round2R_mono h

/-- Rounding to two decimals moves a value by at most `0.005`. -/
theorem round2R_close (x : ℝ) : |round2R x - x| ≤ 1 / 200 := by
  unfold round2R
  have h : |x * 100 - ((round (x * 100) : ℤ) : ℝ)| ≤ 1 / 2 := abs_sub_round (x * 100)
  have h2 : ((round (x * 100) : ℤ) : ℝ) / 100 - x =
      -((x * 100 - ((round (x * 100) : ℤ) : ℝ)) / 100) := by ring
  rw [h2, abs_neg, abs_div, abs_of_pos (by norm_num : (0 : ℝ) < 100)]
  linarith [abs_nonneg (x * 100 - ((round (x * 100) : ℤ) : ℝ))]

/-- The haversine distance of the source is never negative. -/
theorem calculateDistance_nonneg (lat1 lng1 lat2 lng2 : ℝ) :
    0 ≤ calculateDistance lat1 lng1 lat2 lng2 := by
  unfold calculateDistance
  apply round2R_nonneg
  exact mul_nonneg (by norm_num)
    (mul_nonneg (by norm_num) (atan2_nonneg (Real.sqrt_nonneg _)))

/-- The `mockGridPoints` table of `generateGridDistance` (second variant,
15 reference hubs). -/
noncomputable def mockGridPoints : List (ℝ × ℝ) :=
  [(28.7041, 77.1025), (28.6139, 77.2090), (28.5355, 77.3910), (28.4595, 77.0266),
   (28.9845, 77.7064), (29.1492, 77.0460), (23.0225, 72.5714), (19.0760, 72.8777),
   (13.0827, 80.2707), (17.3850, 78.4867), (22.5726, 88.3639), (18.5204, 73.8567),
   (12.9716, 77.5946), (22.3072, 72.1262), (21.1702, 72.8311)]

/-- The JS running-minimum loop seeded with `Infinity`, modelled with `none`
for the infinite seed. -/
noncomputable def jsMinFold (l : List ℝ) : Option ℝ :=
  l.foldl (fun m d =>
    match m with
    | none => some d
    | some v => if d < v then some d else some v) none

/-- The running-minimum loop stays nonnegative when the accumulator and all
scanned values are. -/
theorem jsMinFold_loop_nonneg : ∀ (l : List ℝ) (m : Option ℝ),
    (∀ d ∈ l, 0 ≤ d) → 0 ≤ m.getD 0 →
    0 ≤ (List.foldl (fun m d =>
      match m with
      | none => some d
      | some v => if d < v then some d else some v) m l).getD 0 := by
  intro l
  induction l with
  | nil =>
    intro m h hm
    exact hm
  | cons d ds ih =>
    intro m h hm
    apply ih
    · intro x hx
      exact h x (List.mem_cons_of_mem _ hx)
    · have hd : 0 ≤ d := h d (List.mem_cons_self _ _)
      cases m with
      | none => simpa using hd
      | some v =>
        simp only [Option.getD_some] at hm
        by_cases hlt : d < v
        · simpa [hlt] using hd
        · simpa [hlt] using hm

/-- Source `generateRenewablePotential(lat, lng)` (second variant): regional base,
`Math.random() * 150 - 75` noise passed in as `r`, latitude factor, then
`Math.max(1600, Math.min(2000, Math.round(potential)))`. -/
noncomputable def generateRenewablePotential (lat lng r : ℝ) : ℝ :=
  let basePotential : ℝ := 1750
  let basePotential := if 28.0 ≤ lat ∧ lat ≤ 29.0 ∧ 76.5 ≤ lng ∧ lng ≤ 77.5 then 1850 else basePotential
  let basePotential := if 20.0 ≤ lat ∧ lat ≤ 24.5 ∧ 68.0 ≤ lng ∧ lng ≤ 74.5 then 1900 else basePotential
  let basePotential := if 24.0 ≤ lat ∧ lat ≤ 30.0 ∧ 69.0 ≤ lng ∧ lng ≤ 78.0 then 1950 else basePotential
  let basePotential := if 27.5 ≤ lat ∧ lat ≤ 30.5 ∧ 74.5 ≤ lng ∧ lng ≤ 77.5 then 1870 else basePotential
  let randomFactor := r * 150 - 75
  let latitudeFactor := Real.cos (toRad |lat|) * 30
  let potential := basePotential + randomFactor + latitudeFactor
  max 1600 (min 2000 ((round potential : ℤ) : ℝ))

/-- The generator clamp keeps the potential inside `[1600, 2000]` for every
input, noise included. -/
theorem generateRenewablePotential_bounds (lat lng r : ℝ) :
    1600 ≤ generateRenewablePotential lat lng r ∧
    generateRenewablePotential lat lng r ≤ 2000 :=
  ⟨le_max_left _ _, max_le (by norm_num) (min_le_left _ _)⟩

/-- Source `generateGridDistance(lat, lng)` (second variant): minimum haversine
distance to the 15 reference hubs, plus `Math.random() * 10` jitter, rounded
to 2 decimals. -/
noncomputable def generateGridDistance (lat lng r : ℝ) : ℝ :=
  let minDistance := (jsMinFold (mockGridPoints.map fun p => calculateDistance lat lng p.1 p.2)).getD 0
  let randomFactor := r * 10
  round2R (minDistance + randomFactor)

/-- With a nonnegative draw the mock grid distance is nonnegative. -/
theorem generateGridDistance_nonneg (lat lng : ℝ) {r : ℝ} (hr : 0 ≤ r) :
    0 ≤ generateGridDistance lat lng r := by
  unfold generateGridDistance
  apply round2R_nonneg
  have hmin : 0 ≤ (jsMinFold (mockGridPoints.map fun p => calculateDistance lat lng p.1 p.2)).getD 0 := by
    apply jsMinFold_loop_nonneg
    · intro d hd
      obtain ⟨p, _, hp⟩ := List.mem_map.mp hd
      rw [← hp]
      exact calculateDistance_nonneg lat lng p.1 p.2
    · simp
  linarith

/-- Source `generateWindSpeed(lat, lng)` (second variant). -/
noncomputable def generateWindSpeed (lat lng r : ℝ) : ℝ :=
  let baseWindSpeed : ℝ := 6.5
  let baseWindSpeed := if 28.0 ≤ lat ∧ lat ≤ 29.5 ∧ 76.5 ≤ lng ∧ lng ≤ 78.0 then 7.2 else baseWindSpeed
  let baseWindSpeed := if |lat| < 20 ∧ (lng < 75 ∨ lng > 80) then baseWindSpeed + 2.5 else baseWindSpeed
  let baseWindSpeed := if lat > 30 then baseWindSpeed + 1.8 else baseWindSpeed
  let baseWindSpeed := if 24.0 ≤ lat ∧ lat ≤ 30.0 ∧ 69.0 ≤ lng ∧ lng ≤ 78.0 then baseWindSpeed + 1.2 else baseWindSpeed
  let randomFactor := (r - 0.5) * 2.5
  max 4.0 (min 12.0 (round1R (baseWindSpeed + randomFactor)))

/-- One `majorCities` record of `generateInfrastructureAccess`. -/
structure MajorCity where
  lat : ℝ
  lng : ℝ
  score : ℝ

/-- The `majorCities` table of `generateInfrastructureAccess`. -/
noncomputable def majorCities : List MajorCity :=
  [⟨19.0760, 72.8777, 8.5⟩, ⟨13.0827, 80.2707, 8.0⟩, ⟨12.9716, 77.5946, 8.0⟩,
   ⟨23.0225, 72.5714, 7.8⟩, ⟨22.5726, 88.3639, 7.5⟩]

/-- Source `generateInfrastructureAccess(lat, lng)` (second variant). -/
noncomputable def generateInfrastructureAccess (lat lng r : ℝ) : ℝ :=
  let baseScore : ℝ := 6.0
  let baseScore := if 28.0 ≤ lat ∧ lat ≤ 29.5 ∧ 76.5 ≤ lng ∧ lng ≤ 78.0 then 8.5 else baseScore
  let baseScore := majorCities.foldl (fun acc city =>
    let distance := calculateDistance lat lng city.lat city.lng
    if distance < 50 then max acc (city.score - (distance / 50) * 2) else acc) baseScore
  let baseScore := if 27.0 ≤ lat ∧ lat ≤ 30.0 ∧ 76.0 ≤ lng ∧ lng ≤ 78.5 then baseScore + 1.0 else baseScore
  let baseScore := if |lat| > 35 ∨ |lng| > 85 ∨ |lng| < 68 then baseScore - 2.5 else baseScore
  let randomFactor := (r - 0.5) * 1.5
  round1R (max 1 (min 10 (baseScore + randomFactor)))

/-! ### Suitability scorer (src/backend/utils/scoring.js, second variant,
`calculateSuitabilityScore`, lines 280-322) -/

/-- The `Math.random()` draws consumed by one `calculateSuitabilityScore`
call, one field per draw site, in source order. -/
structure RandDraws where
  potential : ℝ
  grid : ℝ
  wind : ℝ
  infra : ℝ

/-- The `details.breakdown` object. -/
structure ScoreBreakdown where
  renewableScore : ℝ
  demandScore : ℝ
  gridScore : ℝ

/-- The `details` object. -/
structure ScoreDetails where
  renewablePotential : ℝ
  distanceToDemand : ℝ
  distanceToGrid : ℝ
  breakdown : ScoreBreakdown

/-- The `factors` object. -/
structure ScoreFactors where
  windSpeed : ℝ
  solarIrradiance : ℝ
  distanceToDemand : ℝ
  infrastructureAccess : ℝ

/-- The result object of `calculateSuitabilityScore`. -/
structure SuitabilityResult where
  score : ℝ
  details : ScoreDetails
  factors : ScoreFactors

/-- Source `calculateSuitabilityScore(lat, lng, distanceToDemand)`: a THREE
parameter function; the total is the unclamped sum of the renewable, demand
and grid terms, rounded to two decimals. -/
noncomputable def calculateSuitabilityScore (lat lng distanceToDemand : ℝ) (ρ : RandDraws) : SuitabilityResult :=
  let renewablePotential := generateRenewablePotential lat lng ρ.potential
  let distanceToGrid := generateGridDistance lat lng ρ.grid
  let windSpeed := generateWindSpeed lat lng ρ.wind
  let infrastructureAccess := generateInfrastructureAccess lat lng ρ.infra
  let renewableScore := (renewablePotential / 2000) * 40
  let demandScore := max 0 (30 * Real.exp (-distanceToDemand / 100))
  let gridScore := max 0 (30 * Real.exp (-distanceToGrid / 150))
  let totalScore := renewableScore + demandScore + gridScore
  { score := round2R totalScore
    details :=
      { renewablePotential := renewablePotential
        distanceToDemand := round2R distanceToDemand
        distanceToGrid := distanceToGrid
        breakdown :=
          { renewableScore := round2R renewableScore
            demandScore := round2R demandScore
            gridScore := round2R gridScore } }
    factors :=
      { windSpeed := round2R windSpeed
        solarIrradiance := round2R renewablePotential
        distanceToDemand := round2R distanceToDemand
        infrastructureAccess := round2R infrastructureAccess } }

/-- The call at src/unnamed/part_006 line 80:
`calculateSuitabilityScore(lat, lng, distanceToDemand, regulatoryAnalysis.overallScore)`.
The callee declares only three parameters, so JavaScript silently discards
the fourth argument; the call is exactly a three-argument call. -/
noncomputable def controllerScoreCall (lat lng distanceToDemand regulatoryScore : ℝ)
    (ρ : RandDraws) : SuitabilityResult :=
  calculateSuitabilityScore lat lng distanceToDemand ρ

/-- The interpretation record of `getScoreInterpretation`. -/
structure Interpretation where
  level : String
  color : String
  description : String
deriving DecidableEq

/-- Source `getScoreInterpretation(score)` of the suitability controller
(src/unnamed/part_006 lines 107-139): the five-band tier lookup. -/
noncomputable def getScoreInterpretation (score : ℝ) : Interpretation :=
  if score ≥ 80 then
    ⟨"Excellent", "#22c55e",
      "Highly suitable location with excellent renewable potential and infrastructure access"⟩
  else if score ≥ 60 then
    ⟨"Good", "#84cc16",
      "Good location with favorable conditions for hydrogen infrastructure"⟩
  else if score ≥ 40 then
    ⟨"Fair", "#eab308",
      "Moderately suitable location with some limitations"⟩
  else if score ≥ 20 then
    ⟨"Poor", "#f97316",
      "Limited suitability due to infrastructure or resource constraints"⟩
  else
    ⟨"Very Poor", "#ef4444",
      "Not recommended due to poor renewable potential or infrastructure access"⟩

/-- Projection of the total score out of `calculateSuitabilityScore`. -/
theorem calculateSuitabilityScore_score (lat lng d : ℝ) (ρ : RandDraws) :
    (calculateSuitabilityScore lat lng d ρ).score =
      round2R ((generateRenewablePotential lat lng ρ.potential / 2000) * 40 +
        max 0 (30 * Real.exp (-d / 100)) +
        max 0 (30 * Real.exp (-(generateGridDistance lat lng ρ.grid) / 150))) := rfl

/-- Projection of the breakdown out of `calculateSuitabilityScore`. -/
theorem calculateSuitabilityScore_breakdown (lat lng d : ℝ) (ρ : RandDraws) :
    (calculateSuitabilityScore lat lng d ρ).details.breakdown =
      { renewableScore := round2R ((generateRenewablePotential lat lng ρ.potential / 2000) * 40)
        demandScore := round2R (max 0 (30 * Real.exp (-d / 100)))
        gridScore := round2R (max 0 (30 * Real.exp (-(generateGridDistance lat lng ρ.grid) / 150))) } := rfl

/-- Projection of the renewable breakdown entry. -/
theorem calculateSuitabilityScore_renewableScore (lat lng d : ℝ) (ρ : RandDraws) :
    (calculateSuitabilityScore lat lng d ρ).details.breakdown.renewableScore =
      round2R ((generateRenewablePotential lat lng ρ.potential / 2000) * 40) := rfl

/-- Projection of the demand breakdown entry. -/
theorem calculateSuitabilityScore_demandScore (lat lng d : ℝ) (ρ : RandDraws) :
    (calculateSuitabilityScore lat lng d ρ).details.breakdown.demandScore =
      round2R (max 0 (30 * Real.exp (-d / 100))) := rfl

/-- Projection of the grid breakdown entry. -/
theorem calculateSuitabilityScore_gridScore (lat lng d : ℝ) (ρ : RandDraws) :
    (calculateSuitabilityScore lat lng d ρ).details.breakdown.gridScore =
      round2R (max 0 (30 * Real.exp (-(generateGridDistance lat lng ρ.grid) / 150))) := rfl

/-- A clamped exponential-decay term `max(0, 30 * exp t)` with `t ≤ 0` lies
in `[0, 30]`. -/
theorem jsExpScore_bounds {t : ℝ} (ht : t ≤ 0) :
    0 ≤ max 0 (30 * Real.exp t) ∧ max 0 (30 * Real.exp t) ≤ 30 := by
  refine ⟨le_max_left _ _, max_le (by norm_num) ?_⟩
  have h1 : Real.exp t ≤ 1 := Real.exp_le_one_iff.mpr ht
  nlinarith [Real.exp_pos t]

/-- Claim C1 (code bug): the regulatory score handed to the scorer by the
point-suitability controller never influences the result: for a fixed
coordinate, demand distance and draw, the results of two calls differing
only in the supplied regulatory score are identical, because the fourth
argument is passed to a three-parameter function and silently dropped. -/
theorem regulatoryScoreIgnored :
    ∀ (ρ : RandDraws) (rs1 rs2 : ℝ),
      controllerScoreCall 23.0225 72.5714 5 rs1 ρ =
        controllerScoreCall 23.0225 72.5714 5 rs2 ρ :=
  fun _ _ _ => rfl

/-- Claim C5: for every coordinate, nonnegative demand distance and draw
(the grid jitter draw being nonnegative, as `Math.random()` is), the
returned score lies in `[0,100]`, and it equals the sum of the three
breakdown components up to the 2-decimal roundings (each of the four
roundings moves its value by at most `0.005`, so the gap is at most
`0.02 = 1/50`); no clamp is applied to the total. -/
theorem suitabilityScore_range_and_sum (lat lng d : ℝ) (ρ : RandDraws)
    (hd : 0 ≤ d) (hr : 0 ≤ ρ.grid) :
    0 ≤ (calculateSuitabilityScore lat lng d ρ).score ∧
    (calculateSuitabilityScore lat lng d ρ).score ≤ 100 ∧
    |(calculateSuitabilityScore lat lng d ρ).score -
      ((calculateSuitabilityScore lat lng d ρ).details.breakdown.renewableScore +
        (calculateSuitabilityScore lat lng d ρ).details.breakdown.demandScore +
        (calculateSuitabilityScore lat lng d ρ).details.breakdown.gridScore)| ≤ 1 / 50 := by
  obtain ⟨hp1, hp2⟩ := generateRenewablePotential_bounds lat lng ρ.potential
  have hdgn : 0 ≤ generateGridDistance lat lng ρ.grid := generateGridDistance_nonneg lat lng hr
  have hD := jsExpScore_bounds (t := -d / 100) (by linarith)
  have hG := jsExpScore_bounds (t := -(generateGridDistance lat lng ρ.grid) / 150) (by linarith)
  rw [calculateSuitabilityScore_score, calculateSuitabilityScore_renewableScore,
    calculateSuitabilityScore_demandScore, calculateSuitabilityScore_gridScore]
  have hrS1 : 32 ≤ generateRenewablePotential lat lng ρ.potential / 2000 * 40 := by linarith
  have hrS2 : generateRenewablePotential lat lng ρ.potential / 2000 * 40 ≤ 40 := by linarith
  have h100 : round2R 100 = 100 := by
    have h := round2R_intCast 100
    push_cast at h
    exact h
  refine ⟨round2R_nonneg (by linarith [hD.1, hG.1]), ?_, ?_⟩
  · calc round2R _ ≤ round2R 100 := round2R_mono (by linarith [hD.2, hG.2])
      _ = 100 := h100
  · have c0 := round2R_close (generateRenewablePotential lat lng ρ.potential / 2000 * 40 +
      max 0 (30 * Real.exp (-d / 100)) +
      max 0 (30 * Real.exp (-(generateGridDistance lat lng ρ.grid) / 150)))
    have c1 := round2R_close (generateRenewablePotential lat lng ρ.potential / 2000 * 40)
    have c2 := round2R_close (max 0 (30 * Real.exp (-d / 100)))
    have c3 := round2R_close (max 0 (30 * Real.exp (-(generateGridDistance lat lng ρ.grid) / 150)))
    obtain ⟨a0, b0⟩ := abs_le.mp c0
    obtain ⟨a1, b1⟩ := abs_le.mp c1
    obtain ⟨a2, b2⟩ := abs_le.mp c2
    obtain ⟨a3, b3⟩ := abs_le.mp c3
    apply abs_le.mpr
    constructor <;> linarith

/-- Witness for claim C5 at the Ahmedabad coordinate, demand distance 5 km
and the all-zero draw. -/
theorem suitabilityScore_range_and_sum_witness :
    ((0 : ℝ) ≤ 5 ∧ (0 : ℝ) ≤ (RandDraws.mk 0 0 0 0).grid) ∧
    (0 ≤ (calculateSuitabilityScore 23.0225 72.5714 5 (RandDraws.mk 0 0 0 0)).score ∧
      (calculateSuitabilityScore 23.0225 72.5714 5 (RandDraws.mk 0 0 0 0)).score ≤ 100 ∧
      |(calculateSuitabilityScore 23.0225 72.5714 5 (RandDraws.mk 0 0 0 0)).score -
        ((calculateSuitabilityScore 23.0225 72.5714 5 (RandDraws.mk 0 0 0 0)).details.breakdown.renewableScore +
          (calculateSuitabilityScore 23.0225 72.5714 5 (RandDraws.mk 0 0 0 0)).details.breakdown.demandScore +
          (calculateSuitabilityScore 23.0225 72.5714 5 (RandDraws.mk 0 0 0 0)).details.breakdown.gridScore)| ≤ 1 / 50) :=
  ⟨⟨by norm_num, by norm_num⟩,
    suitabilityScore_range_and_sum 23.0225 72.5714 5 (RandDraws.mk 0 0 0 0)
      (by norm_num) (by norm_num)⟩

/-- Claim C10: for every coordinate, every demand distance (even negative)
and every draw, the three-factor score is at least 32, because the clamped
renewable potential contributes at least `(1600/2000)*40 = 32` and the two
decay terms are clamped below by 0; hence the interpretation can never be
the Very Poor tier (nor the sub-32 part of Poor). -/
theorem suitabilityScore_at_least_32 (lat lng d : ℝ) (ρ : RandDraws) :
    32 ≤ (calculateSuitabilityScore lat lng d ρ).score ∧
    (getScoreInterpretation (calculateSuitabilityScore lat lng d ρ).score).level ≠ "Very Poor" := by
  obtain ⟨hp1, hp2⟩ := generateRenewablePotential_bounds lat lng ρ.potential
  have hsc : 32 ≤ (calculateSuitabilityScore lat lng d ρ).score := by
    rw [calculateSuitabilityScore_score]
    have h32 : round2R 32 = 32 := by
      have h := round2R_intCast 32
      push_cast at h
      exact h
    calc (32 : ℝ) = round2R 32 := h32.symm
      _ ≤ round2R _ := by
        apply round2R_mono
        have hm1 := le_max_left (0 : ℝ) (30 * Real.exp (-d / 100))
        have hm2 := le_max_left (0 : ℝ)
          (30 * Real.exp (-(generateGridDistance lat lng ρ.grid) / 150))
        have : 32 ≤ generateRenewablePotential lat lng ρ.potential / 2000 * 40 := by linarith
        linarith
  refine ⟨hsc, ?_⟩
  unfold getScoreInterpretation
  split_ifs with h1 h2 h3 h4
  · decide
  · decide
  · decide
  · decide
  · linarith

/-! ### Nearest-demand-centre scan of the area analyzer
(src/unnamed/part_006, lines 213-225) -/

/-- The inner `for…of` loop over the pre-fetched centre coordinates:
update the running minimum, and `break` as soon as the updating candidate is
closer than 5 km. -/
noncomputable def nearestScanAux (lat lng : ℝ) : List (ℝ × ℝ) → ℝ → ℝ
  | [], m => m
  | c :: cs, m =>
    let distance := calculateDistance lat lng c.1 c.2
    if distance < m then
      (if distance < 5 then distance else nearestScanAux lat lng cs distance)
    else nearestScanAux lat lng cs m

/-- The whole scan: `minDistance` starts at the 100 km fallback, and the
loop body only runs for a non-empty snapshot (the guard is redundant, since
the loop over an empty list leaves the fallback untouched). -/
noncomputable def nearestScan (lat lng : ℝ) (demandCenterCoords : List (ℝ × ℝ)) : ℝ :=
  if 0 < demandCenterCoords.length then nearestScanAux lat lng demandCenterCoords 100
  else 100

/-- The same loop on a pre-computed list of distances. -/
noncomputable def distScan : List ℝ → ℝ → ℝ
  | [], m => m
  | d :: ds, m =>
    if d < m then (if d < 5 then d else distScan ds d) else distScan ds m

/-- The portion of the distance list the loop actually examines: every
leading candidate at 5 km or more, plus the first candidate under 5 km when
one exists (the early `break`). -/
noncomputable def scannedDists (ds : List ℝ) : List ℝ :=
  ds.takeWhile (fun d => decide (5 ≤ d)) ++ (ds.dropWhile (fun d => decide (5 ≤ d))).take 1

/-- The centre-list loop computes the distance-list loop of the mapped
distances. -/
theorem nearestScanAux_eq_distScan (lat lng : ℝ) : ∀ (cs : List (ℝ × ℝ)) (m : ℝ),
    nearestScanAux lat lng cs m =
      distScan (cs.map fun c => calculateDistance lat lng c.1 c.2) m := by
  intro cs
  induction cs with
  | nil =>
    intro m
    rfl
  | cons c rest ih =>
    intro m
    simp only [nearestScanAux, List.map_cons, distScan]
    by_cases h : calculateDistance lat lng c.1 c.2 < m
    · rw [if_pos h, if_pos h]
      by_cases h5 : calculateDistance lat lng c.1 c.2 < 5
      · rw [if_pos h5, if_pos h5]
      · rw [if_neg h5, if_neg h5, ih]
    · rw [if_neg h, if_neg h, ih]

/-- Loop invariant: as long as the running minimum is still at least 5 km,
the loop returns the minimum of the accumulator and the scanned portion. -/
theorem distScan_eq_foldl_min : ∀ (ds : List ℝ) (m : ℝ), 5 ≤ m →
    distScan ds m = (scannedDists ds).foldl min m := by
  intro ds
  induction ds with
  | nil =>
    intro m hm
    simp [distScan, scannedDists]
  | cons d rest ih =>
    intro m hm
    by_cases h5 : 5 ≤ d
    · have hq : (fun d => decide (5 ≤ d)) d = true := by simpa using h5
      have hsc : scannedDists (d :: rest) = d :: scannedDists rest := by
        simp only [scannedDists, List.takeWhile_cons, List.dropWhile_cons, hq]
        simp
      rw [hsc]
      simp only [distScan, List.foldl_cons]
      by_cases hdm : d < m
      · rw [if_pos hdm, if_neg (by linarith : ¬ d < 5), ih d h5]
        congr 1
        exact (min_eq_right (le_of_lt hdm)).symm
      · rw [if_neg hdm, ih m hm]
        congr 1
        push_neg at hdm
        exact (min_eq_left hdm).symm
    · push_neg at h5
      have hq : (fun d => decide (5 ≤ d)) d = false := by simpa using h5
      have hsc : scannedDists (d :: rest) = [d] := by
        simp only [scannedDists, List.takeWhile_cons, List.dropWhile_cons, hq]
        simp
      rw [hsc]
      have hdm : d < m := by linarith
      simp only [distScan]
      rw [if_pos hdm, if_pos h5]
      simp [min_eq_right (le_of_lt hdm)]

/-- Claim C3 (amended): the demand distance handed to the scorer is the
minimum of the 100 km fallback and the haversine distances the scan
examines (all leading candidates at 5 km or more plus the first one under
5 km); in particular it is `min 100 (true minimum)` when no early exit
fires, and 100 for an empty snapshot — NOT the true minimum whenever every
candidate is farther than 100 km. -/
theorem nearestScan_eq_min_with_fallback (lat lng : ℝ) (dc : List (ℝ × ℝ)) :
    nearestScan lat lng dc =
      (scannedDists (dc.map fun c => calculateDistance lat lng c.1 c.2)).foldl min 100 := by
  unfold nearestScan
  by_cases h : 0 < dc.length
  · rw [if_pos h, nearestScanAux_eq_distScan, distScan_eq_foldl_min _ _ (by norm_num)]
  · rw [if_neg h]
    have hnil : dc = [] := by
      cases dc with
      | nil => rfl
      | cons x xs => simp at h
    subst hnil
    simp [scannedDists]

/-- The haversine distance between the equatorial points at longitudes 0
and 180 is the rounded half circumference `round2R (6371 π)`. -/
theorem calculateDistance_antipodal :
    calculateDistance 0 0 0 180 = round2R (6371 * Real.pi) := by
  simp only [calculateDistance, toRad]
  have e1 : ((0 : ℝ) - 0) * (Real.pi / 180) / 2 = 0 := by ring
  have e2 : ((180 : ℝ) - 0) * (Real.pi / 180) / 2 = Real.pi / 2 := by ring
  have e3 : ((0 : ℝ)) * (Real.pi / 180) = 0 := by ring
  simp only [e1, e2, e3, Real.sin_zero, Real.cos_zero, Real.sin_pi_div_two]
  norm_num
  have hat : atan2 1 0 = Real.pi / 2 := by
    unfold atan2
    norm_num
  rw [hat]
  congr 1
  ring

/-- Claim C3, counterexample: for the cell centre `(0,0)` and the one-centre
snapshot `[(0,180)]` the scan returns the 100 km fallback, although the
minimum haversine distance to the snapshot exceeds 100 km (about 20015 km),
the snapshot is non-empty, and no candidate is within 5 km, so no early
exit occurred: the returned distance is not the snapshot minimum. -/
theorem nearestScanNotMinimum :
    nearestScan 0 0 [(0, 180)] = 100 ∧
    100 < calculateDistance 0 0 0 180 ∧
    ¬ calculateDistance 0 0 0 180 < 5 ∧
    nearestScan 0 0 [(0, 180)] ≠ calculateDistance 0 0 0 180 := by
  have hd : 100 < calculateDistance 0 0 0 180 := by
    rw [calculateDistance_antipodal]
    have hpi := Real.pi_gt_three
    have hc := round2R_close (6371 * Real.pi)
    obtain ⟨ha, hb⟩ := abs_le.mp hc
    linarith
  have hs : nearestScan 0 0 [(0, 180)] = 100 := by
    unfold nearestScan
    rw [if_pos (by norm_num)]
    simp only [nearestScanAux]
    rw [if_neg (by push_neg; linarith)]
  exact ⟨hs, hd, by linarith, by rw [hs]; linarith⟩

/-! ### Area grid analyzer (src/unnamed/part_006, `analyzeArea` and
`calculateAreaStats`, lines 150-315) -/

/-- One scored cell: the scorer result tagged with its coordinate and
interpretation, as pushed into `sites`. -/
structure AnalyzedSite where
  result : SuitabilityResult
  lat : ℚ
  lng : ℚ
  interp : Interpretation

/-- The `areaStats` object of `calculateAreaStats`. -/
structure AreaStats where
  sitesAnalyzed : ℕ
  avgScore : ℝ
  maxScore : ℝ
  minScore : ℝ
  areaSize : ℝ
  suitableSites : ℕ
  excellentSites : ℕ
  goodSites : ℕ
  fairSites : ℕ
  poorSites : ℕ
  latitudeSpan : ℝ
  longitudeSpan : ℝ

/-- JS `Math.max(...scores)` guarded by `scores.length > 0 ? … : 0`. -/
noncomputable def listMaxOr0 : List ℝ → ℝ
  | [] => 0
  | s :: rest => rest.foldl max s

/-- JS `Math.min(...scores)` guarded by `scores.length > 0 ? … : 0`. -/
noncomputable def listMinOr0 : List ℝ → ℝ
  | [] => 0
  | s :: rest => rest.foldl min s

/-- Source `calculateAreaStats(sites, bounds, polygon)`: aggregate statistics plus
the flat-earth area approximation (the `polygon` parameter is unused for the
square analysis, as in the source). -/
noncomputable def calculateAreaStats (sites : List AnalyzedSite) (b : Bounds) : AreaStats :=
  let scores := sites.map fun s => s.result.score
  let avgScore := if 0 < scores.length then scores.sum / (scores.length : ℝ) else 0
  let maxScore := listMaxOr0 scores
  let minScore := listMinOr0 scores
  let latKm : ℝ := ((b.north : ℝ) - (b.south : ℝ)) * 111
  let lngKm : ℝ := ((b.east : ℝ) - (b.west : ℝ)) * 111 *
    Real.cos ((((b.north : ℝ) + (b.south : ℝ)) / 2) * Real.pi / 180)
  let areaKm2 := |latKm * lngKm|
  { sitesAnalyzed := sites.length
    avgScore := round2R avgScore
    maxScore := round2R maxScore
    minScore := round2R minScore
    areaSize := round2R areaKm2
    suitableSites := (sites.filter fun s => decide (60 ≤ s.result.score)).length
    excellentSites := (sites.filter fun s => decide (80 ≤ s.result.score)).length
    goodSites := (sites.filter fun s => decide (60 ≤ s.result.score ∧ s.result.score < 80)).length
    fairSites := (sites.filter fun s => decide (40 ≤ s.result.score ∧ s.result.score < 60)).length
    poorSites := (sites.filter fun s => decide (s.result.score < 40)).length
    latitudeSpan := round2R latKm
    longitudeSpan := round2R lngKm }

/-- The result object of `analyzeArea` (the timestamp, a side effect, is
omitted). -/
structure AreaAnalysisResult where
  bestSite : Option AnalyzedSite
  sites : List AnalyzedSite
  areaStats : AreaStats
  gridResolution : ℕ
  totalSitesAnalyzed : ℕ
  analysisType : String

/-- The per-cell body of the grid loop: nearest-demand scan, scorer call,
tagging with the coordinate and interpretation. The `try/catch` of the
source is dead in the model since no model function throws. -/
noncomputable def analyzeSite (dc : List (ℝ × ℝ)) (p : ℚ × ℚ) (ρc : RandDraws) : AnalyzedSite :=
  let minDistance := nearestScan (p.1 : ℝ) (p.2 : ℝ) dc
  let siteResult := calculateSuitabilityScore (p.1 : ℝ) (p.2 : ℝ) minDistance ρc
  { result := siteResult
    lat := p.1
    lng := p.2
    interp := getScoreInterpretation siteResult.score }

/-- The JS comparator `(a, b) => b.score - a.score` as the precedes-relation
of a stable sort: `a` may come before `b` exactly when `b.score ≤ a.score`. -/
noncomputable def siteDescLe (a c : AnalyzedSite) : Bool :=
  decide (c.result.score ≤ a.result.score)

/-- The successful path of `analyzeArea` after bounds validation: score the
`(min g 8)²` cells (`ρ` supplies each cell's random draws), sort by score
descending, report best site, top 10, statistics and counts. -/
noncomputable def analyzeAreaOk (b : Bounds) (dc : List (ℝ × ℝ)) (g : ℕ)
    (ρ : ℚ → ℚ → RandDraws) : AreaAnalysisResult :=
  let sites := (gridCells b g).map fun p => analyzeSite dc p (ρ p.1 p.2)
  let sorted := sites.mergeSort siteDescLe
  { bestSite := sorted.head?
    sites := sorted.take 10
    areaStats := calculateAreaStats sorted b
    gridResolution := actualGridResolution g
    totalSitesAnalyzed := sorted.length
    analysisType := "square" }

/-- Source `analyzeArea` with its bounds validation: degenerate rectangles are
rejected before any cell is evaluated. -/
noncomputable def analyzeArea (b : Bounds) (dc : List (ℝ × ℝ)) (g : ℕ)
    (ρ : ℚ → ℚ → RandDraws) : Option AreaAnalysisResult :=
  if b.north ≤ b.south ∨ b.east ≤ b.west then none
  else some (analyzeAreaOk b dc g ρ)

/-- Claim C4: for every bounds, snapshot, requested resolution and draw
source, the analyzer evaluates exactly `(min g 8)²` cells — the clamped
resolution never exceeds 8 — so the reported `totalSitesAnalyzed` and
`areaStats.sitesAnalyzed` never exceed 64 (with `g = 100`, or any other
request, included). -/
theorem analyzeArea_atMost64Cells (b : Bounds) (dc : List (ℝ × ℝ)) (g : ℕ)
    (ρ : ℚ → ℚ → RandDraws) :
    (analyzeAreaOk b dc g ρ).totalSitesAnalyzed =
      actualGridResolution g * actualGridResolution g ∧
    actualGridResolution g ≤ 8 ∧
    (analyzeAreaOk b dc g ρ).totalSitesAnalyzed ≤ 64 ∧
    (analyzeAreaOk b dc g ρ).areaStats.sitesAnalyzed ≤ 64 := by
  have hlen : (analyzeAreaOk b dc g ρ).totalSitesAnalyzed =
      actualGridResolution g * actualGridResolution g := by
    show (((gridCells b g).map fun p => analyzeSite dc p (ρ p.1 p.2)).mergeSort siteDescLe).length = _
    rw [List.length_mergeSort, List.length_map, gridCells_length]
  have hstats : (analyzeAreaOk b dc g ρ).areaStats.sitesAnalyzed =
      actualGridResolution g * actualGridResolution g := by
    show (((gridCells b g).map fun p => analyzeSite dc p (ρ p.1 p.2)).mergeSort siteDescLe).length = _
    rw [List.length_mergeSort, List.length_map, gridCells_length]
  have h8 : actualGridResolution g ≤ 8 := min_le_right g 8
  have h64 : actualGridResolution g * actualGridResolution g ≤ 64 :=
    le_trans (Nat.mul_le_mul h8 h8) (by norm_num)
  exact ⟨hlen, h8, by rw [hlen]; exact h64, by rw [hstats]; exact h64⟩

/-- The sort relation is transitive. -/
theorem siteDescLe_trans : ∀ (a c e : AnalyzedSite),
    siteDescLe a c → siteDescLe c e → siteDescLe a e := by
  intro a c e hac hce
  simp only [siteDescLe, decide_eq_true_eq] at hac hce ⊢
  exact le_trans hce hac

/-- The sort relation is total. -/
theorem siteDescLe_total : ∀ (a c : AnalyzedSite), siteDescLe a c || siteDescLe c a := by
  intro a c
  simp only [siteDescLe, Bool.or_eq_true, decide_eq_true_eq]
  exact le_total c.result.score a.result.score

/-- Claim C9: for every bounds, snapshot and draw source, and every
requested resolution of at least 1, the returned ranked list is sorted by
score descending, `bestSite` is present and equals the head of the ranked
list, and the ranked list keeps at most the top 10 entries. -/
theorem analyzeArea_ranking (b : Bounds) (dc : List (ℝ × ℝ)) (g : ℕ)
    (ρ : ℚ → ℚ → RandDraws) (hg : 1 ≤ g) :
    (analyzeAreaOk b dc g ρ).bestSite.isSome = true ∧
    (analyzeAreaOk b dc g ρ).bestSite = (analyzeAreaOk b dc g ρ).sites.head? ∧
    (analyzeAreaOk b dc g ρ).sites.length ≤ 10 ∧
    List.Pairwise (fun a c => c.result.score ≤ a.result.score)
      (analyzeAreaOk b dc g ρ).sites := by
  have hlen : (((gridCells b g).map fun p => analyzeSite dc p (ρ p.1 p.2)).mergeSort
      siteDescLe).length = actualGridResolution g * actualGridResolution g := by
    rw [List.length_mergeSort, List.length_map, gridCells_length]
  have hn1 : 1 ≤ actualGridResolution g := by
    unfold actualGridResolution
    omega
  have hpos : 0 < (((gridCells b g).map fun p => analyzeSite dc p (ρ p.1 p.2)).mergeSort
      siteDescLe).length := by
    rw [hlen]
    exact Nat.mul_pos hn1 hn1
  obtain ⟨x, xs, hx⟩ := List.exists_cons_of_ne_nil (List.ne_nil_of_length_pos hpos)
  have hbest : (analyzeAreaOk b dc g ρ).bestSite =
      (((gridCells b g).map fun p => analyzeSite dc p (ρ p.1 p.2)).mergeSort
        siteDescLe).head? := rfl
  have hsites : (analyzeAreaOk b dc g ρ).sites =
      (((gridCells b g).map fun p => analyzeSite dc p (ρ p.1 p.2)).mergeSort
        siteDescLe).take 10 := rfl
  have hsorted := List.sorted_mergeSort siteDescLe_trans siteDescLe_total
    ((gridCells b g).map fun p => analyzeSite dc p (ρ p.1 p.2))
  refine ⟨?_, ?_, ?_, ?_⟩
  · rw [hbest, hx]
    rfl
  · rw [hbest, hsites, hx]
    simp
  · rw [hsites]
    simp [List.length_take]
  · rw [hsites]
    have hsub := List.take_sublist 10
      (((gridCells b g).map fun p => analyzeSite dc p (ρ p.1 p.2)).mergeSort siteDescLe)
    refine (hsorted.sublist hsub).imp ?_
    intro a c h
    simpa [siteDescLe] using h

/-- Witness for claim C9 at bounds `wideBounds`, an empty snapshot,
requested resolution 1 and the all-zero draw source. -/
theorem analyzeArea_ranking_witness :
    1 ≤ 1 ∧
    ((analyzeAreaOk wideBounds [] 1 (fun _ _ => RandDraws.mk 0 0 0 0)).bestSite.isSome = true ∧
      (analyzeAreaOk wideBounds [] 1 (fun _ _ => RandDraws.mk 0 0 0 0)).bestSite =
        (analyzeAreaOk wideBounds [] 1 (fun _ _ => RandDraws.mk 0 0 0 0)).sites.head? ∧
      (analyzeAreaOk wideBounds [] 1 (fun _ _ => RandDraws.mk 0 0 0 0)).sites.length ≤ 10 ∧
      List.Pairwise (fun a c => c.result.score ≤ a.result.score)
        (analyzeAreaOk wideBounds [] 1 (fun _ _ => RandDraws.mk 0 0 0 0)).sites) :=
  ⟨by norm_num,
    analyzeArea_ranking wideBounds [] 1 (fun _ _ => RandDraws.mk 0 0 0 0) (by norm_num)⟩
